import Mathlib

/-!
Shallow embedding of `newportESP.py` (Newport ESP motion-controller driver)
and verification of its specification claims.

Modelling conventions:
* Python strings are Lean `String`; all slicing/splitting helpers are written
  over `String.data` (`List Char`) with structural recursion so that concrete
  evaluations go through the kernel.
* The serial port is a scripted line channel: `SerState.pending` is the list
  of raw lines that successive `readline()` calls will return (each line still
  carrying its two terminator characters, as the hardware sends `...\r\n`);
  a `readline()` on an empty script models a timeout, which pyserial reports
  by returning the empty string.  `SerState.written` is the trace of frames
  written to the port, in order.
* `threading.Lock` is non-reentrant; a single caller acquiring it while it is
  already held blocks forever.  `SerState.lockHeld` records whether the lock
  is held, and computations return `Res.deadlock` when they would block
  forever on the lock.
* Python exceptions become the `PyExc` type; a computation on the driver is a
  `SerState → Res α` function, where `Res` distinguishes normal return,
  raised exception, and deadlock.
-/

namespace NewportESP

/-- Characters of Python `s.split(",")`: split a character list at commas,
keeping empty fields.  `acc` is the (reversed) current field. -/
def splitAux : List Char → List Char → List (List Char)
  | [], acc => [acc.reverse]
  | c :: cs, acc =>
      if c = ',' then acc.reverse :: splitAux cs [] else splitAux cs (c :: acc)

/-- Python `string.split(',')`. -/
def pySplit (s : String) : List String :=
  (splitAux s.data []).map String.mk

/-- Python `s[n:]`. -/
def pyDropLeft (s : String) (n : Nat) : String :=
  String.mk (s.data.drop n)

/-- Python `s[0:-2]` (also correct for strings of length below 2, where the
slice is empty or the whole string minus nothing: `take (len - 2)` with
truncated subtraction matches Python's clamping). -/
def pySliceToNeg2 (s : String) : String :=
  String.mk (s.data.take (s.data.length - 2))

/-- Python `len(s)`. -/
def pyLen (s : String) : Nat := s.data.length

/-- Numeric value of a list of decimal digit characters
(`int("…")` on an all-digit string). -/
def digitsVal (cs : List Char) : Nat :=
  cs.foldl (fun acc c => acc * 10 + (c.toNat - 48)) 0

/-- Decimal digits of `n`, most significant first; `fuel` bounds recursion
(structural, so the kernel can evaluate it). -/
def natDigits : Nat → Nat → List Char
  | 0, _ => []
  | _ + 1, 0 => []
  | fuel + 1, n + 1 =>
      natDigits fuel ((n + 1) / 10) ++ [Char.ofNat (48 + (n + 1) % 10)]

/-- Python `str(n)` for a natural number. -/
def pyStrNat (n : Nat) : String :=
  if n = 0 then "0" else String.mk (natDigits n n)

/-- Python `str(i)` for an integer. -/
def pyStrInt (i : Int) : String :=
  if i < 0 then "-" ++ pyStrNat i.natAbs else pyStrNat i.natAbs

/-- Python `float(s)` on plain decimal literals (optional sign, digits,
optional fractional part), returning the exact rational value; `none` models
`ValueError`.  Scientific notation and the special floats are outside the
fragment this driver's replies use. -/
def pyFloatParse (s : String) : Option ℚ :=
  let signAndRest : Bool × List Char :=
    match s.data with
    | '-' :: rest => (true, rest)
    | '+' :: rest => (false, rest)
    | cs => (false, cs)
  let neg := signAndRest.1
  let cs := signAndRest.2
  let intPart := cs.takeWhile Char.isDigit
  let rest := cs.dropWhile Char.isDigit
  let mag : Option ℚ :=
    match rest with
    | [] => if intPart.isEmpty then none else some (digitsVal intPart : ℚ)
    | '.' :: frac =>
        if frac.all Char.isDigit && !(intPart.isEmpty && frac.isEmpty) then
          some ((digitsVal intPart : ℚ) + (digitsVal frac : ℚ) / ((10 : ℚ) ^ frac.length))
        else none
    | _ => none
  match mag with
  | none => none
  | some q => some (if neg then -q else q)

/-- Python `int(s)` on decimal literals (optional sign, digits); `none`
models `ValueError`. -/
def pyIntParse (s : String) : Option Int :=
  match s.data with
  | '-' :: rest =>
      if !rest.isEmpty && rest.all Char.isDigit then some (-(digitsVal rest : Int)) else none
  | '+' :: rest =>
      if !rest.isEmpty && rest.all Char.isDigit then some ((digitsVal rest : Int)) else none
  | cs =>
      if !cs.isEmpty && cs.all Char.isDigit then some ((digitsVal cs : Int)) else none

/-- Attribute record built by `NewportError.__init__` (lines 39-51). -/
structure NEData where
  axis : Option String
  code : String
  timestamp : String
  message : String
deriving DecidableEq

/-- The Python exceptions this driver can raise. -/
inductive PyExc where
  | indexError
  | valueError
  | keyError
  | newportError (data : NEData) (raw : String)
  | runtimeError (msg : String)
deriving DecidableEq

/-- Python list subscripting `l[i]`, raising `IndexError` when out of range. -/
def pyGet (l : List String) (i : Nat) : Except PyExc String :=
  match l.get? i with
  | some s => Except.ok s
  | none => Except.error PyExc.indexError

/-- `NewportError.__init__` (`newportESP.py` lines 39-51), as the function
from the raw error string to the attribute record (or the exception the
constructor itself raises).  Faithful to the source, including line 49
`self.code = split_string[0]`, which unconditionally overwrites the value the
line 43-48 branch had just stored in `self.code` (so only the `axis`
attribute still reflects the length-3 branch). -/
def NewportError.init (string : String) : Except PyExc NEData := do
  let split_string := pySplit string
  let code ← pyGet split_string 0
  -- lines 43-48: on a length-3 code field the branch sets
  -- `self.axis = code[0]` and `self.code = code[1:]`, else `axis = None`,
  -- `self.code = code`; only the axis assignment survives line 49.
  let axis : Option String :=
    if pyLen code = 3 then some (String.mk (code.data.take 1)) else none
  -- line 49: `self.code = split_string[0]` (overwrites the branch's code)
  let codeAttr ← pyGet split_string 0
  let f1 ← pyGet split_string 1
  let f2 ← pyGet split_string 2
  return { axis := axis, code := codeAttr,
           timestamp := pyDropLeft f1 1, message := pyDropLeft f2 1 }

/-- State of the scripted serial channel shared by all driver operations. -/
structure SerState where
  /-- Raw lines (terminator included) that successive reads will return. -/
  pending : List String
  /-- Trace of frames written to the port, oldest first. -/
  written : List String
  /-- Whether `self.lock` (a non-reentrant `threading.Lock`) is held. -/
  lockHeld : Bool
deriving DecidableEq

/-- Result of running a driver operation: normal return, raised Python
exception, or blocking forever on the non-reentrant lock. -/
inductive Res (α : Type) where
  | ok (a : α) (st : SerState)
  | exn (e : PyExc) (st : SerState)
  | deadlock (st : SerState)
deriving DecidableEq

/-- `pyserial` `readline()` against the script: next pending line, or the
empty string on timeout (empty script). -/
def serReadline (st : SerState) : String × SerState :=
  match st.pending with
  | [] => ("", st)
  | l :: ls => (l, { st with pending := ls })

/-- The frame `ESP.write` sends: `(str(axis) if axis is not None else "") +
string + "\r"`.  The axis argument arrives already rendered by `str`. -/
def espFrame (string : String) (axis : Option String) : String :=
  (match axis with | some a => a | none => "") ++ string ++ "\r"

/-- `ESP.write` (lines 111-118): append the frame to the port trace. -/
def ESP.write (st : SerState) (string : String) (axis : Option String) : SerState :=
  { st with written := st.written ++ [espFrame string axis] }

/-- `ESP.read` (lines 104-109): one `readline()` with the two end-of-line
characters removed (`str[0:-2]`).  On timeout `readline` returns the empty
string and so does `read`. -/
def ESP.read (st : SerState) : String × SerState :=
  let rs := serReadline st
  (pySliceToNeg2 rs.1, rs.2)

/-- `ESP.query` (lines 120-136) in the `check_error=False` case: take the
lock, write `string + '?'`, read once, release the lock.  Acquiring while the
lock is already held blocks forever (`threading.Lock` is non-reentrant).
`ESP.query` below generalizes this to both flag values and is proved equal to
this definition at `check_error = false` (`ESP.query_false`). -/
def ESP.queryNC (st : SerState) (string : String) (axis : Option String) : Res String :=
  if st.lockHeld then Res.deadlock st
  else
    let st1 := { st with lockHeld := true }
    let st2 := ESP.write st1 (string ++ "?") axis
    let rs := ESP.read st2
    Res.ok rs.1 { rs.2 with lockHeld := false }

/-- `ESP.read_error` (lines 147-149): `return self.query('TB')` with the
default `axis=None, check_error=False`. -/
def ESP.read_error (st : SerState) : Res String :=
  ESP.queryNC st "TB" none

/-- `ESP.raise_error` (lines 151-155): read the last error string and raise
`NewportError(err)` when `err[0] != "0"`.  `err[0]` on an empty reply raises
`IndexError`; constructing `NewportError(err)` can itself raise. -/
def ESP.raise_error (st : SerState) : Res Unit :=
  match ESP.read_error st with
  | Res.ok err st1 =>
      match err.data with
      | [] => Res.exn PyExc.indexError st1
      | c :: _ =>
          if c = '0' then Res.ok () st1
          else
            match NewportError.init err with
            | Except.ok d => Res.exn (PyExc.newportError d err) st1
            | Except.error e => Res.exn e st1
  | Res.exn e st1 => Res.exn e st1
  | Res.deadlock st1 => Res.deadlock st1

/-- `ESP.query` (lines 120-136) in full: under `with self.lock`, optionally
`raise_error()`, write `string + '?'`, optionally `raise_error()` again, then
read once.  The `with` block releases the lock when an exception escapes;
a nested lock acquisition never returns, so a deadlock stays a deadlock. -/
def ESP.query (st : SerState) (string : String) (axis : Option String)
    (check_error : Bool) : Res String :=
  if st.lockHeld then Res.deadlock st
  else
    let st1 := { st with lockHeld := true }
    match (if check_error then ESP.raise_error st1 else Res.ok () st1) with
    | Res.deadlock s => Res.deadlock s
    | Res.exn e s => Res.exn e { s with lockHeld := false }
    | Res.ok _ s =>
        let s2 := ESP.write s (string ++ "?") axis
        match (if check_error then ESP.raise_error s2 else Res.ok () s2) with
        | Res.deadlock s3 => Res.deadlock s3
        | Res.exn e s3 => Res.exn e { s3 with lockHeld := false }
        | Res.ok _ s3 =>
            let rs := ESP.read s3
            Res.ok rs.1 { rs.2 with lockHeld := false }

/-- `ESP.abort` (lines 143-145): `self.write('AB')`, controller-directed. -/
def ESP.abort (st : SerState) : SerState :=
  ESP.write st "AB" none

/-- An axis handle; only the index matters for the command traffic. -/
structure AxisH where
  axis : Nat
deriving DecidableEq

/-- `Axis.write` (lines 194-206): default the axis argument to the handle's
own index (after the defaulting the argument is never `None`, so the frame
always carries the rendered axis prefix, possibly the empty string). -/
def Axis.write (a : AxisH) (st : SerState) (string : String)
    (axisArg : Option String) : SerState :=
  let ax := match axisArg with | some s => s | none => pyStrNat a.axis
  ESP.write st string (some ax)

/-- `Axis.query` (lines 208-217): `self.esp.query(string, self.axis, check_error)`. -/
def Axis.query (a : AxisH) (st : SerState) (string : String)
    (check_error : Bool) : Res String :=
  ESP.query st string (some (pyStrNat a.axis)) check_error

/-- `Axis.moving` (lines 273-279): `False if self.query('MD') == "1" else True`. -/
def Axis.moving (a : AxisH) (st : SerState) : Res Bool :=
  match Axis.query a st "MD" false with
  | Res.ok r s => Res.ok (if r = "1" then false else true) s
  | Res.exn e s => Res.exn e s
  | Res.deadlock s => Res.deadlock s

/-- The message of the `RuntimeError` raised by the
`check_previous_motion_is_done` decorator (lines 72-79). -/
def motionNotDoneMsg : String := "Previous motion is not done! Aborting."

/-- `Axis.move_up` (lines 325-334), with the `check_previous_motion_is_done`
decorator inlined: the decorator samples `self.moving` and raises
`RuntimeError` when moving; the body then samples `self.moving` a second
time, writes `'MV-'` when not moving, and otherwise only prints a message
(no write, no exception). -/
def Axis.move_up (a : AxisH) (st : SerState) : Res Unit :=
  match Axis.moving a st with
  | Res.ok true s => Res.exn (PyExc.runtimeError motionNotDoneMsg) s
  | Res.ok false s =>
      match Axis.moving a s with
      | Res.ok false s2 => Res.ok () (Axis.write a s2 "MV-" none)
      | Res.ok true s2 => Res.ok () s2
      | Res.exn e s2 => Res.exn e s2
      | Res.deadlock s2 => Res.deadlock s2
  | Res.exn e s => Res.exn e s
  | Res.deadlock s => Res.deadlock s

/-- `Axis.move_down` (lines 336-345), decorator inlined as in
`Axis.move_up`; the jog command written is `'MV+'`. -/
def Axis.move_down (a : AxisH) (st : SerState) : Res Unit :=
  match Axis.moving a st with
  | Res.ok true s => Res.exn (PyExc.runtimeError motionNotDoneMsg) s
  | Res.ok false s =>
      match Axis.moving a s with
      | Res.ok false s2 => Res.ok () (Axis.write a s2 "MV+" none)
      | Res.ok true s2 => Res.ok () s2
      | Res.exn e s2 => Res.exn e s2
      | Res.deadlock s2 => Res.deadlock s2
  | Res.exn e s => Res.exn e s
  | Res.deadlock s => Res.deadlock s

/-- `Axis.move_` (lines 347-352), decorator inlined: takes a `direction`
argument of any type but never uses it; the body is identical to
`Axis.move_down`'s (it writes `'MV+'`). -/
def Axis.move_ {D : Type} (a : AxisH) (direction : D) (st : SerState) : Res Unit :=
  match Axis.moving a st with
  | Res.ok true s => Res.exn (PyExc.runtimeError motionNotDoneMsg) s
  | Res.ok false s =>
      match Axis.moving a s with
      | Res.ok false s2 => Res.ok () (Axis.write a s2 "MV+" none)
      | Res.ok true s2 => Res.ok () s2
      | Res.exn e s2 => Res.exn e s2
      | Res.deadlock s2 => Res.deadlock s2
  | Res.exn e s => Res.exn e s
  | Res.deadlock s => Res.deadlock s

/-- Return value of `Axis.travel_limits()` in the query case: the Python
dictionary `{'left': left_lim, 'right': right_lim}`. -/
structure TravelLims where
  left : ℚ
  right : ℚ
deriving DecidableEq

/-- `Axis.travel_limits` (lines 387-402).  If both arguments are `None`,
query `'SL'` then `'SR'`, parse each reply with `float` (raising
`ValueError` on a non-numeric reply), and return the dictionary; otherwise
write `'SL'+str(left)` and/or `'SR'+str(right)` and return `None`.  The
function is generic in the numeric argument type `V` with its Python
`str` rendering `toStr`, mirroring Python's duck typing. -/
def Axis.travel_limits {V : Type} (toStr : V → String) (a : AxisH) (st : SerState)
    (left right : Option V) : Res (Option TravelLims) :=
  match left, right with
  | none, none =>
      match Axis.query a st "SL" false with
      | Res.ok r1 s1 =>
          match pyFloatParse r1 with
          | none => Res.exn PyExc.valueError s1
          | some left_lim =>
              match Axis.query a s1 "SR" false with
              | Res.ok r2 s2 =>
                  match pyFloatParse r2 with
                  | none => Res.exn PyExc.valueError s2
                  | some right_lim => Res.ok (some ⟨left_lim, right_lim⟩) s2
              | Res.exn e s2 => Res.exn e s2
              | Res.deadlock s2 => Res.deadlock s2
      | Res.exn e s1 => Res.exn e s1
      | Res.deadlock s1 => Res.deadlock s1
  | _, _ =>
      let st1 := match left with
        | some v => Axis.write a st ("SL" ++ toStr v) none
        | none => st
      let st2 := match right with
        | some v => Axis.write a st1 ("SR" ++ toStr v) none
        | none => st1
      Res.ok none st2

/-- The module-level `UNIT` dictionary (lines 406-408), with the source's
exact strings (including `'millimiter'` and the plural inch forms);
`none` models a `KeyError` on lookup. -/
def UNIT (n : Int) : Option String :=
  if n = 0 then some "encoder count"
  else if n = 1 then some "motor step"
  else if n = 2 then some "millimiter"
  else if n = 3 then some "micrometer"
  else if n = 4 then some "inches"
  else if n = 5 then some "milli-inches"
  else if n = 6 then some "micro-inches"
  else if n = 7 then some "degree"
  else if n = 8 then some "gradient"
  else if n = 9 then some "radian"
  else if n = 10 then some "milliradian"
  else if n = 11 then some "microradian"
  else none

/-- `Axis.unit` (lines 382-385): `UNIT[int(self.query('SN'))]`; `int` raises
`ValueError` on a non-integer reply and the dictionary lookup raises
`KeyError` on a code outside the table. -/
def Axis.unit (a : AxisH) (st : SerState) : Res String :=
  match Axis.query a st "SN" false with
  | Res.ok r s =>
      match pyIntParse r with
      | none => Res.exn PyExc.valueError s
      | some n =>
          match UNIT n with
          | some u => Res.ok u s
          | none => Res.exn PyExc.keyError s
  | Res.exn e s => Res.exn e s
  | Res.deadlock s => Res.deadlock s

/-- The frame an axis-directed command produces on the wire:
axis prefix, command text, carriage return. -/
def axisFrame (a : AxisH) (s : String) : String :=
  pyStrNat a.axis ++ s ++ "\r"

/-! ## General lemmas about the embedding -/

/-- With `check_error = false`, `ESP.query` is exactly the lock-write-read
sequence `ESP.queryNC` (justifying `ESP.read_error`'s use of the latter). -/
theorem ESP.query_false (st : SerState) (string : String) (axis : Option String) :
    ESP.query st string axis false = ESP.queryNC st string axis := by
  unfold ESP.query ESP.queryNC
  by_cases h : st.lockHeld = true
  · simp [h]
  · simp [h]

/-- Python `split` always yields at least one field. -/
theorem splitAux_ne_nil : ∀ (cs acc : List Char), splitAux cs acc ≠ []
  | [], acc => by simp [splitAux]
  | c :: cs, acc => by
      unfold splitAux
      by_cases h : c = ','
      · simp [h]
      · simpa [h] using splitAux_ne_nil cs (c :: acc)

/-- Evaluation of an unchecked axis query against a script with at least one
pending line: it consumes the line, appends the query frame, and returns the
trimmed reply with the lock back free. -/
theorem Axis.query_cons (a : AxisH) (s : String) (p w : List String) (r : String) :
    Axis.query a ⟨r :: p, w, false⟩ s false =
      Res.ok (pySliceToNeg2 r) ⟨p, w ++ [axisFrame a (s ++ "?")], false⟩ := rfl

/-- Evaluation of `Axis.moving` against a script with a pending line. -/
theorem Axis.moving_cons (a : AxisH) (p w : List String) (r : String) :
    Axis.moving a ⟨r :: p, w, false⟩ =
      Res.ok (if pySliceToNeg2 r = "1" then false else true)
        ⟨p, w ++ [axisFrame a "MD?"], false⟩ := rfl

/-- Full case analysis of `Axis.move_up` on a two-line script: the decorator
raises on a Moving first sample; otherwise the body samples again and writes
the jog only when the second sample is also Idle. -/
theorem Axis.move_up_cases (a : AxisH) (w : List String) (r1 r2 : String)
    (rest : List String) :
    (pySliceToNeg2 r1 ≠ "1" →
      Axis.move_up a ⟨r1 :: r2 :: rest, w, false⟩ =
        Res.exn (PyExc.runtimeError motionNotDoneMsg)
          ⟨r2 :: rest, w ++ [axisFrame a "MD?"], false⟩) ∧
    (pySliceToNeg2 r1 = "1" → pySliceToNeg2 r2 = "1" →
      Axis.move_up a ⟨r1 :: r2 :: rest, w, false⟩ =
        Res.ok () ⟨rest, w ++ [axisFrame a "MD?", axisFrame a "MD?", axisFrame a "MV-"], false⟩) ∧
    (pySliceToNeg2 r1 = "1" → pySliceToNeg2 r2 ≠ "1" →
      Axis.move_up a ⟨r1 :: r2 :: rest, w, false⟩ =
        Res.ok () ⟨rest, w ++ [axisFrame a "MD?", axisFrame a "MD?"], false⟩) := by
  refine ⟨fun h1 => ?_, fun h1 h2 => ?_, fun h1 h2 => ?_⟩
  · simp only [Axis.move_up, Axis.moving_cons, if_neg h1]
  · simp only [Axis.move_up, Axis.moving_cons, if_pos h1, if_pos h2]
    simp [Axis.write, ESP.write, espFrame, axisFrame, List.append_assoc]
  · simp only [Axis.move_up, Axis.moving_cons, if_pos h1, if_neg h2]
    simp [List.append_assoc]

/-- Full case analysis of `Axis.move_down`, mirroring `Axis.move_up_cases`
with jog command `'MV+'`. -/
theorem Axis.move_down_cases (a : AxisH) (w : List String) (r1 r2 : String)
    (rest : List String) :
    (pySliceToNeg2 r1 ≠ "1" →
      Axis.move_down a ⟨r1 :: r2 :: rest, w, false⟩ =
        Res.exn (PyExc.runtimeError motionNotDoneMsg)
          ⟨r2 :: rest, w ++ [axisFrame a "MD?"], false⟩) ∧
    (pySliceToNeg2 r1 = "1" → pySliceToNeg2 r2 = "1" →
      Axis.move_down a ⟨r1 :: r2 :: rest, w, false⟩ =
        Res.ok () ⟨rest, w ++ [axisFrame a "MD?", axisFrame a "MD?", axisFrame a "MV+"], false⟩) ∧
    (pySliceToNeg2 r1 = "1" → pySliceToNeg2 r2 ≠ "1" →
      Axis.move_down a ⟨r1 :: r2 :: rest, w, false⟩ =
        Res.ok () ⟨rest, w ++ [axisFrame a "MD?", axisFrame a "MD?"], false⟩) := by
  refine ⟨fun h1 => ?_, fun h1 h2 => ?_, fun h1 h2 => ?_⟩
  · simp only [Axis.move_down, Axis.moving_cons, if_neg h1]
  · simp only [Axis.move_down, Axis.moving_cons, if_pos h1, if_pos h2]
    simp [Axis.write, ESP.write, espFrame, axisFrame, List.append_assoc]
  · simp only [Axis.move_down, Axis.moving_cons, if_pos h1, if_neg h2]
    simp [List.append_assoc]

/-- `Axis.move_` has, for every direction argument, exactly the body of
`Axis.move_down` (writing `'MV+'`). -/
theorem Axis.move_underscore_eq_move_down {D : Type} (a : AxisH) (d : D) (st : SerState) :
    Axis.move_ a d st = Axis.move_down a st := rfl

/-! ## Claim C1 -/

/-- Claim C1 is false on the code: decoding `"125,451322,AXIS TIMEOUT"` gives
the `code` attribute `"125"` (line 49 overwrites the 2-character code the
length-3 branch computed) and the `message` attribute `"XIS TIMEOUT"` (the
leading character of the third field is stripped even when it is not a
marker), not `"25"` and `"AXIS TIMEOUT"` as the claim states. -/
theorem c1_counterexample :
    NewportError.init "125,451322,AXIS TIMEOUT" =
        Except.ok { axis := some "1", code := "125",
                    timestamp := "51322", message := "XIS TIMEOUT" } ∧
      ("125" : String) ≠ "25" ∧ ("XIS TIMEOUT" : String) ≠ "AXIS TIMEOUT" :=
  ⟨rfl, by decide, by decide⟩

/-- Claim C1, amended: for an error reply splitting into at least 3 fields
whose first field has 1-3 characters, `NewportError` construction sets the
`axis` attribute to the first character of the code field exactly when that
field has length 3 (else no axis), sets the `code` attribute to the WHOLE
first field in every case (the reassignment on source line 49 overwrites the
2-character code of the length-3 branch), and sets `timestamp` and `message`
to the second and third fields each with one leading character stripped.
On `"125,451322,AXIS TIMEOUT"` this yields axis `"1"`, code `"125"`,
timestamp `"51322"`, message `"XIS TIMEOUT"`. -/
theorem c1_amended (s c t m : String) (rest : List String)
    (hsp : pySplit s = c :: t :: m :: rest) (hc : pyLen c ≤ 3) :
    NewportError.init s =
      Except.ok { axis := if pyLen c = 3 then some (String.mk (c.data.take 1)) else none,
                  code := c, timestamp := pyDropLeft t 1, message := pyDropLeft m 1 } := by
  simp only [NewportError.init, hsp, pyGet, List.get?]
  rfl

/-- Witness for `c1_amended` at the specification's own example input. -/
theorem c1_amended_witness :
    NewportError.init "125,451322,AXIS TIMEOUT" =
      Except.ok { axis := if pyLen "125" = 3 then some (String.mk ("125".data.take 1)) else none,
                  code := "125", timestamp := pyDropLeft "451322" 1,
                  message := pyDropLeft "AXIS TIMEOUT" 1 } :=
  c1_amended "125,451322,AXIS TIMEOUT" "125" "451322" "AXIS TIMEOUT" []
    (by decide) (by decide)

/-! ## Claim C2 -/

/-- Claim C2 identifies a code bug: `query` with `check_error=True` never
performs the described exchange.  Under the (non-reentrant) lock it calls
`raise_error`, whose `read_error` re-enters `query('TB')` and blocks forever
trying to re-acquire the already-held lock, so for every starting state with
the lock free the call deadlocks: nothing is written, nothing is read, and no
reply is ever returned, contradicting the claimed behaviour. -/
theorem c2_query_check_error_deadlocks (st : SerState) (string : String)
    (axis : Option String) (h : st.lockHeld = false) :
    ESP.query st string axis true = Res.deadlock { st with lockHeld := true } := by
  simp [ESP.query, ESP.raise_error, ESP.read_error, ESP.queryNC, h]

/-- Witness for `c2_query_check_error_deadlocks`: a concrete checked query
deadlocks even with a well-formed error reply scripted. -/
theorem c2_query_check_error_deadlocks_witness :
    ESP.query ⟨["0, 451322, NO ERROR DETECTED\r\n"], [], false⟩ "TP" (some "1") true =
      Res.deadlock ⟨["0, 451322, NO ERROR DETECTED\r\n"], [], true⟩ :=
  c2_query_check_error_deadlocks ⟨["0, 451322, NO ERROR DETECTED\r\n"], [], false⟩
    "TP" (some "1") rfl

/-! ## Claim C3 -/

/-- Claim C3 is false on the code: with no pending data (a timed-out read,
where `readline` returns the empty string), `query` returns the empty string
as a normal reply; it raises nothing (there is no `ProtocolError` anywhere in
the code). -/
theorem c3_counterexample :
    ESP.query ⟨[], [], false⟩ "TP" (some "1") false = Res.ok "" ⟨[], ["1TP?\r"], false⟩ ∧
      ∀ (e : PyExc) (s : SerState),
        ESP.query ⟨[], [], false⟩ "TP" (some "1") false ≠ Res.exn e s :=
  ⟨rfl, fun _ _ h => Res.noConfusion h⟩

/-- Claim C3, amended: when the blocking read times out or returns no data,
`query` silently returns the empty string to the caller (the write still
happens, the lock is released, and no exception of any kind is raised; the
code has no `ProtocolError`). -/
theorem c3_amended (st : SerState) (string : String) (axis : Option String)
    (hl : st.lockHeld = false) (hp : st.pending = []) :
    ESP.query st string axis false =
      Res.ok "" ⟨[], st.written ++ [espFrame (string ++ "?") axis], false⟩ := by
  obtain ⟨p, w, l⟩ := st
  simp only at hl hp
  subst hl hp
  simp [ESP.query, ESP.write, ESP.read, serReadline, pySliceToNeg2]

/-- Witness for `c3_amended` on a concrete timed-out version query. -/
theorem c3_amended_witness :
    ESP.query ⟨[], [], false⟩ "VE" none false =
      Res.ok "" ⟨[], [espFrame ("VE" ++ "?") none], false⟩ :=
  c3_amended ⟨[], [], false⟩ "VE" none rfl rfl

/-! ## Claim C4 -/

/-- Claim C4 is false on the code: with a script whose motion-done replies
are `"1"` then `"0"`, the first `moving` sample reports Idle (reply `"1"`),
yet `move_up` neither raises nor writes any jog frame — the body samples
`moving` a second time, sees Moving, and only prints.  So "if the reply is
`"1"` exactly one continuous-jog command is written" fails. -/
theorem c4_counterexample :
    pySliceToNeg2 "1\r\n" = "1" ∧
      Axis.move_up ⟨1⟩ ⟨["1\r\n", "0\r\n"], [], false⟩ =
        Res.ok () ⟨[], ["1MD?\r", "1MD?\r"], false⟩ ∧
      ("1MV-\r" : String) ∉ (["1MD?\r", "1MD?\r"] : List String) :=
  ⟨rfl, rfl, by decide⟩

/-- Claim C4, amended: `move_up`/`move_down` sample the moving state twice,
once in the `check_previous_motion_is_done` decorator and once in the body.
If the first motion-done reply is not `"1"`, the call fails with the
`RuntimeError` (the spec's `MotionInProgressError`) and no jog frame is
written; if both replies are `"1"`, exactly one continuous-jog command is
written (`'MV-'` for `move_up`, `'MV+'` for `move_down`); if only the second
reply is not `"1"`, the call returns normally without writing a jog frame
(and without raising). -/
theorem c4_guard (a : AxisH) (st : SerState) (r1 r2 : String) (rest : List String)
    (hl : st.lockHeld = false) (hp : st.pending = r1 :: r2 :: rest) :
    (pySliceToNeg2 r1 ≠ "1" →
      Axis.move_up a st =
          Res.exn (PyExc.runtimeError motionNotDoneMsg)
            ⟨r2 :: rest, st.written ++ [axisFrame a "MD?"], false⟩ ∧
        Axis.move_down a st =
          Res.exn (PyExc.runtimeError motionNotDoneMsg)
            ⟨r2 :: rest, st.written ++ [axisFrame a "MD?"], false⟩) ∧
    (pySliceToNeg2 r1 = "1" → pySliceToNeg2 r2 = "1" →
      Axis.move_up a st =
          Res.ok () ⟨rest, st.written ++ [axisFrame a "MD?", axisFrame a "MD?",
            axisFrame a "MV-"], false⟩ ∧
        Axis.move_down a st =
          Res.ok () ⟨rest, st.written ++ [axisFrame a "MD?", axisFrame a "MD?",
            axisFrame a "MV+"], false⟩) ∧
    (pySliceToNeg2 r1 = "1" → pySliceToNeg2 r2 ≠ "1" →
      Axis.move_up a st =
          Res.ok () ⟨rest, st.written ++ [axisFrame a "MD?", axisFrame a "MD?"], false⟩ ∧
        Axis.move_down a st =
          Res.ok () ⟨rest, st.written ++ [axisFrame a "MD?", axisFrame a "MD?"], false⟩) := by
  obtain ⟨p, w, l⟩ := st
  simp only at hl hp
  subst hl hp
  exact ⟨fun h1 => ⟨(Axis.move_up_cases a w r1 r2 rest).1 h1,
          (Axis.move_down_cases a w r1 r2 rest).1 h1⟩,
        fun h1 h2 => ⟨(Axis.move_up_cases a w r1 r2 rest).2.1 h1 h2,
          (Axis.move_down_cases a w r1 r2 rest).2.1 h1 h2⟩,
        fun h1 h2 => ⟨(Axis.move_up_cases a w r1 r2 rest).2.2 h1 h2,
          (Axis.move_down_cases a w r1 r2 rest).2.2 h1 h2⟩⟩

/-- Witness for `c4_guard`: with both motion-done replies Idle the jog frames
are written, one per call. -/
theorem c4_guard_witness :
    Axis.move_up ⟨1⟩ ⟨["1\r\n", "1\r\n"], [], false⟩ =
        Res.ok () ⟨[], ["1MD?\r", "1MD?\r", "1MV-\r"], false⟩ ∧
      Axis.move_down ⟨1⟩ ⟨["1\r\n", "1\r\n"], [], false⟩ =
        Res.ok () ⟨[], ["1MD?\r", "1MD?\r", "1MV+\r"], false⟩ :=
  (c4_guard ⟨1⟩ ⟨["1\r\n", "1\r\n"], [], false⟩ "1\r\n" "1\r\n" [] rfl rfl).2.1 rfl rfl

/-! ## Claim C5 -/

/-- Claim C5: `travel_limits()` with both arguments absent issues an `SL`
query then an `SR` query and returns both limits parsed as numbers as the
pair `{left, right}`; if either argument is present it issues only the
corresponding `SL` and/or `SR` set write(s) (left first) and returns
nothing. -/
theorem c5_travel_limits {V : Type} (toStr : V → String) (a : AxisH) (st : SerState)
    (r1 r2 : String) (rest : List String) (q1 q2 : ℚ)
    (hl : st.lockHeld = false) (hp : st.pending = r1 :: r2 :: rest)
    (h1 : pyFloatParse (pySliceToNeg2 r1) = some q1)
    (h2 : pyFloatParse (pySliceToNeg2 r2) = some q2) :
    Axis.travel_limits toStr a st none none =
        Res.ok (some ⟨q1, q2⟩)
          ⟨rest, st.written ++ [axisFrame a "SL?", axisFrame a "SR?"], false⟩ ∧
      (∀ v : V, Axis.travel_limits toStr a st (some v) none =
        Res.ok none { st with written := st.written ++ [axisFrame a ("SL" ++ toStr v)] }) ∧
      (∀ v : V, Axis.travel_limits toStr a st none (some v) =
        Res.ok none { st with written := st.written ++ [axisFrame a ("SR" ++ toStr v)] }) ∧
      (∀ vl vr : V, Axis.travel_limits toStr a st (some vl) (some vr) =
        Res.ok none { st with written := st.written ++
          [axisFrame a ("SL" ++ toStr vl), axisFrame a ("SR" ++ toStr vr)] }) := by
  obtain ⟨p, w, l⟩ := st
  simp only at hl hp
  subst hl hp
  refine ⟨?_, fun v => ?_, fun v => ?_, fun vl vr => ?_⟩
  · simp only [Axis.travel_limits, Axis.query_cons, h1, h2, List.append_assoc]
    rfl
  · simp [Axis.travel_limits, Axis.write, ESP.write, espFrame, axisFrame]
  · simp [Axis.travel_limits, Axis.write, ESP.write, espFrame, axisFrame]
  · simp [Axis.travel_limits, Axis.write, ESP.write, espFrame, axisFrame,
      List.append_assoc]

/-- Witness for `c5_travel_limits` on the specification's mock: replies
`"-5"` then `"10"` give the pair (-5, 10); `travel_limits(left=-3)` issues
only the `SL` write. -/
theorem c5_travel_limits_witness :
    Axis.travel_limits pyStrInt ⟨1⟩ ⟨["-5\r\n", "10\r\n"], [], false⟩ none none =
        Res.ok (some ⟨-5, 10⟩) ⟨[], ["1SL?\r", "1SR?\r"], false⟩ ∧
      Axis.travel_limits pyStrInt ⟨1⟩ ⟨["-5\r\n", "10\r\n"], [], false⟩ (some (-3)) none =
        Res.ok none ⟨["-5\r\n", "10\r\n"], ["1SL-3\r"], false⟩ := by
  have h := c5_travel_limits pyStrInt ⟨1⟩ ⟨["-5\r\n", "10\r\n"], [], false⟩
    "-5\r\n" "10\r\n" [] (-5) 10 rfl rfl (by decide) (by decide)
  exact ⟨h.1, h.2.1 (-3)⟩

/-! ## Claim C6 -/

/-- Claim C6 is false on the code: an error reply with a single field makes
the `NewportError` constructor fail with the generic `IndexError` from list
subscripting, not with any dedicated malformed-reply error (no such error
kind exists in the code). -/
theorem c6_counterexample :
    NewportError.init "0" = Except.error PyExc.indexError ∧
      (pySplit "0").length < 3 :=
  ⟨rfl, by decide⟩

/-- Claim C6, amended: for every input string with fewer than 3
comma-separated fields, `NewportError` construction fails with the generic
`IndexError` raised by subscripting the field list out of range. -/
theorem c6_amended (s : String) (h : (pySplit s).length < 3) :
    NewportError.init s = Except.error PyExc.indexError := by
  have hne : pySplit s ≠ [] := by
    unfold pySplit
    simp [splitAux_ne_nil]
  rcases hsp : pySplit s with _ | ⟨c, _ | ⟨t, _ | ⟨m, rest⟩⟩⟩
  · exact absurd hsp hne
  · simp [NewportError.init, hsp, pyGet]
    rfl
  · simp [NewportError.init, hsp, pyGet]
    rfl
  · rw [hsp] at h
    simp at h
    omega

/-- Witness for `c6_amended` at a two-field reply. -/
theorem c6_amended_witness :
    (pySplit "a,b").length < 3 ∧ NewportError.init "a,b" = Except.error PyExc.indexError :=
  ⟨by decide, c6_amended "a,b" (by decide)⟩

/-! ## Claim C7 -/

/-- Claim C7 is false on the code: `raise_error` tests only the FIRST
CHARACTER of the raw last-error reply (`err[0] != "0"`), not the decoded
code.  For the reply `"05,451322,NO ERROR"` the decoded code is `"05"`,
which differs from `"0"`, yet `raise_error` returns normally because the
first character is `'0'`. -/
theorem c7_counterexample :
    ESP.raise_error ⟨["05,451322,NO ERROR\r\n"], [], false⟩ =
        Res.ok () ⟨[], ["TB?\r"], false⟩ ∧
      NewportError.init "05,451322,NO ERROR" =
        Except.ok { axis := none, code := "05", timestamp := "51322", message := "O ERROR" } ∧
      ("05" : String) ≠ "0" :=
  ⟨rfl, rfl, by decide⟩

/-- Claim C7, amended: `raise_error` returns normally exactly when the first
character of the raw (trimmed) last-error reply is `'0'`; in every other case
it raises — `NewportError` when the reply decodes (decoding happens only on
the raising path), the decoder's `IndexError` when it does not, and
`IndexError` from `err[0]` when the reply is empty. -/
theorem c7_amended (st : SerState) (r : String) (rest : List String)
    (hl : st.lockHeld = false) (hp : st.pending = r :: rest) :
    ESP.raise_error st = Res.ok () ⟨rest, st.written ++ ["TB?\r"], false⟩ ↔
      (pySliceToNeg2 r).data.head? = some '0' := by
  obtain ⟨p, w, l⟩ := st
  simp only at hl hp
  subst hl hp
  have hre : ESP.read_error ⟨r :: rest, w, false⟩ =
      Res.ok (pySliceToNeg2 r) ⟨rest, w ++ ["TB?\r"], false⟩ := rfl
  unfold ESP.raise_error
  rw [hre]
  dsimp only
  rcases hd : (pySliceToNeg2 r).data with _ | ⟨c, cs⟩
  · simp
  · by_cases hc : c = '0'
    · simp [hc]
    · rcases hni : NewportError.init (pySliceToNeg2 r) with e | d
      · simp [hc]
      · simp [hc]

/-- Witness for `c7_amended`: the canonical "no error" reply has first
character `'0'` and `raise_error` returns normally on it. -/
theorem c7_amended_witness :
    ESP.raise_error ⟨["0, 451322, NO ERROR DETECTED\r\n"], [], false⟩ =
      Res.ok () ⟨[], ["TB?\r"], false⟩ :=
  (c7_amended ⟨["0, 451322, NO ERROR DETECTED\r\n"], [], false⟩
    "0, 451322, NO ERROR DETECTED\r\n" [] rfl rfl).mpr (by decide)

/-! ## Claim C8 -/

/-- Claim C8 is false on the code: when the error-check sub-protocol
(`raise_error`, used by `query(check_error=True)`) detects a device error it
raises `NewportError` immediately; the only frame written during the check is
the `TB?` query — no abort frame (`"AB\r"`, what `ESP.abort` writes) is ever
issued.  (Only the never-applied `catch_error` decorator aborts before
raising.) -/
theorem c8_counterexample :
    ESP.raise_error ⟨["125,451322,AXIS TIMEOUT\r\n"], [], false⟩ =
        Res.exn (PyExc.newportError
            { axis := some "1", code := "125", timestamp := "51322", message := "XIS TIMEOUT" }
            "125,451322,AXIS TIMEOUT")
          ⟨[], ["TB?\r"], false⟩ ∧
      espFrame "AB" none ∉ (["TB?\r"] : List String) :=
  ⟨rfl, by decide⟩

/-- Claim C8, amended: whenever the error-check sub-protocol detects an error
(first character of the trimmed last-error reply not `'0'`), it raises with
the written trace extended by exactly the `TB?` query frame — in particular
no `abort` command is issued before the error reaches the caller. -/
theorem c8_amended (st : SerState) (r : String) (rest : List String) (c : Char)
    (hl : st.lockHeld = false) (hp : st.pending = r :: rest)
    (hh : (pySliceToNeg2 r).data.head? = some c) (hc : c ≠ '0') :
    ∃ e, ESP.raise_error st = Res.exn e ⟨rest, st.written ++ ["TB?\r"], false⟩ := by
  obtain ⟨p, w, l⟩ := st
  simp only at hl hp
  subst hl hp
  have hre : ESP.read_error ⟨r :: rest, w, false⟩ =
      Res.ok (pySliceToNeg2 r) ⟨rest, w ++ ["TB?\r"], false⟩ := rfl
  unfold ESP.raise_error
  rw [hre]
  dsimp only
  rcases hd : (pySliceToNeg2 r).data with _ | ⟨c1, cs⟩
  · rw [hd] at hh
    exact absurd hh (by simp)
  · rw [hd] at hh
    have hc1 : c1 = c := by simpa using hh
    subst hc1
    rcases hni : NewportError.init (pySliceToNeg2 r) with e | d
    · refine ⟨e, ?_⟩
      simp [hc]
    · refine ⟨PyExc.newportError d (pySliceToNeg2 r), ?_⟩
      simp [hc]

/-- Witness for `c8_amended` at a concrete homing-aborted error reply. -/
theorem c8_amended_witness :
    ∃ e, ESP.raise_error ⟨["3, 451322, HOMING ABORTED\r\n"], [], false⟩ =
      Res.exn e ⟨[], ["TB?\r"], false⟩ :=
  c8_amended ⟨["3, 451322, HOMING ABORTED\r\n"], [], false⟩
    "3, 451322, HOMING ABORTED\r\n" [] '3' rfl rfl (by decide) (by decide)

/-! ## Claim C9 -/

/-- Claim C9 is false on the code: for reply code 2 `unit` returns the
source table's misspelled `'millimiter'`, not `'millimeter'` as the claim's
table states (codes 4-6 likewise return plural `'inches'` forms). -/
theorem c9_counterexample :
    Axis.unit ⟨1⟩ ⟨["2\r\n"], [], false⟩ = Res.ok "millimiter" ⟨[], ["1SN?\r"], false⟩ ∧
      ("millimiter" : String) ≠ "millimeter" :=
  ⟨rfl, by decide⟩

/-- Claim C9, amended: for every integer reply code 0 through 11 to the `SN`
query, `unit` returns the name in the code's `UNIT` table with its exact
strings: 0 `'encoder count'`, 1 `'motor step'`, 2 `'millimiter'`,
3 `'micrometer'`, 4 `'inches'`, 5 `'milli-inches'`, 6 `'micro-inches'`,
7 `'degree'`, 8 `'gradient'`, 9 `'radian'`, 10 `'milliradian'`,
11 `'microradian'`. -/
theorem c9_unit_table :
    Axis.unit ⟨1⟩ ⟨["0\r\n"], [], false⟩ = Res.ok "encoder count" ⟨[], ["1SN?\r"], false⟩ ∧
      Axis.unit ⟨1⟩ ⟨["1\r\n"], [], false⟩ = Res.ok "motor step" ⟨[], ["1SN?\r"], false⟩ ∧
      Axis.unit ⟨1⟩ ⟨["2\r\n"], [], false⟩ = Res.ok "millimiter" ⟨[], ["1SN?\r"], false⟩ ∧
      Axis.unit ⟨1⟩ ⟨["3\r\n"], [], false⟩ = Res.ok "micrometer" ⟨[], ["1SN?\r"], false⟩ ∧
      Axis.unit ⟨1⟩ ⟨["4\r\n"], [], false⟩ = Res.ok "inches" ⟨[], ["1SN?\r"], false⟩ ∧
      Axis.unit ⟨1⟩ ⟨["5\r\n"], [], false⟩ = Res.ok "milli-inches" ⟨[], ["1SN?\r"], false⟩ ∧
      Axis.unit ⟨1⟩ ⟨["6\r\n"], [], false⟩ = Res.ok "micro-inches" ⟨[], ["1SN?\r"], false⟩ ∧
      Axis.unit ⟨1⟩ ⟨["7\r\n"], [], false⟩ = Res.ok "degree" ⟨[], ["1SN?\r"], false⟩ ∧
      Axis.unit ⟨1⟩ ⟨["8\r\n"], [], false⟩ = Res.ok "gradient" ⟨[], ["1SN?\r"], false⟩ ∧
      Axis.unit ⟨1⟩ ⟨["9\r\n"], [], false⟩ = Res.ok "radian" ⟨[], ["1SN?\r"], false⟩ ∧
      Axis.unit ⟨1⟩ ⟨["10\r\n"], [], false⟩ = Res.ok "milliradian" ⟨[], ["1SN?\r"], false⟩ ∧
      Axis.unit ⟨1⟩ ⟨["11\r\n"], [], false⟩ = Res.ok "microradian" ⟨[], ["1SN?\r"], false⟩ :=
  ⟨rfl, rfl, rfl, rfl, rfl, rfl, rfl, rfl, rfl, rfl, rfl, rfl⟩

/-! ## Claim C10 -/

/-- Claim C10: `Axis.move_` ignores its `direction` argument entirely — for
any two direction values (even of different types) the calls are
indistinguishable on every state, and when the axis reports Idle (motion-done
reply `"1"` on both of the guard's samples) the single jog frame written is
the fixed positive `'MV+'`. -/
theorem c10_move_ignores_direction {D1 D2 : Type} (d1 : D1) (d2 : D2)
    (a : AxisH) (st : SerState) :
    Axis.move_ a d1 st = Axis.move_ a d2 st ∧
      (∀ r1 r2 rest, st.lockHeld = false → st.pending = r1 :: r2 :: rest →
        pySliceToNeg2 r1 = "1" → pySliceToNeg2 r2 = "1" →
        Axis.move_ a d1 st =
          Res.ok () ⟨rest, st.written ++ [axisFrame a "MD?", axisFrame a "MD?",
            axisFrame a "MV+"], false⟩) := by
  refine ⟨rfl, fun r1 r2 rest hl hp h1 h2 => ?_⟩
  obtain ⟨p, w, l⟩ := st
  simp only at hl hp
  subst hl hp
  rw [Axis.move_underscore_eq_move_down]
  exact (Axis.move_down_cases a w r1 r2 rest).2.1 h1 h2

/-- Witness for `c10_move_ignores_direction` at direction arguments of two
different types and an Idle two-reply script. -/
theorem c10_move_ignores_direction_witness :
    Axis.move_ ⟨1⟩ (5 : Nat) ⟨["1\r\n", "1\r\n"], [], false⟩ =
        Axis.move_ ⟨1⟩ "minus" ⟨["1\r\n", "1\r\n"], [], false⟩ ∧
      Axis.move_ ⟨1⟩ (5 : Nat) ⟨["1\r\n", "1\r\n"], [], false⟩ =
        Res.ok () ⟨[], ["1MD?\r", "1MD?\r", "1MV+\r"], false⟩ := by
  have h := c10_move_ignores_direction (5 : Nat) "minus" ⟨1⟩ ⟨["1\r\n", "1\r\n"], [], false⟩
  exact ⟨h.1, h.2 "1\r\n" "1\r\n" [] rfl rfl rfl rfl⟩

end NewportESP

